import Mathlib

/-!
Shallow embedding of the rust-rest-apis repository (actix-web + tiberius
REST service) and proofs of its specification claims.

Source files embedded:
- src/models.rs   : the `User` data model (serde-serializable record)
- src/handlers.rs : `get_users` (GET /users) and `health_check` (GET /health)
- src/db.rs       : `init_db` configuration reading (environment variables)
- src/main.rs     : startup behaviour (abort when `init_db` fails)

Conventions of the embedding:
- A JSON document is the inductive `Json`; serde serialization of `User`
  is `User.toJson`, and the textual body actix sends is `Json.render`.
- A tiberius `Row` is an association list from column name to `CellValue`;
  `Row.getI32` / `Row.getStr` model `row.get::<i32, _>` / `row.get::<&str, _>`,
  which yield `none` when the column is absent, NULL, or of another SQL type.
- The database interaction of one `get_users` request is summarized by a
  `QueryOutcome`: the query-execution step fails, the materialization step
  (`stream.into_results()`) fails, or materialization succeeds with a list
  of result sets (each a list of rows).
- The lock/await structure of `get_users` is additionally embedded as an
  event trace, `get_users_trace`, to reason about where the mutex guard on
  the shared connection is dropped.
-/

/-- A JSON value, as produced by serde_json for the API responses. -/
inductive Json where
  | jnull : Json
  | jint : Int → Json
  | jstr : String → Json
  | jarr : List Json → Json
  | jobj : List (String × Json) → Json

/-- serde_json escaping of one character inside a JSON string literal
(the characters appearing in this service's payloads need only the
quote and backslash cases). -/
def escapeJsonChar (c : Char) : String :=
  if c = '"' then "\\\""
  else if c = '\\' then "\\\\"
  else String.singleton c

/-- serde_json escaping of the contents of a JSON string literal. -/
def escapeJsonString (s : String) : String :=
  String.join (s.toList.map escapeJsonChar)

mutual

/-- Render a JSON value to its textual form (serde_json compact form,
which is what `HttpResponse::json` writes into the body). -/
def Json.render : Json → String
  | .jnull => "null"
  | .jint n => toString n
  | .jstr s => "\"" ++ escapeJsonString s ++ "\""
  | .jarr xs => "[" ++ Json.renderArr xs ++ "]"
  | .jobj fs => "\x7b" ++ Json.renderObj fs ++ "\x7d"

/-- Render the comma-separated elements of a JSON array. -/
def Json.renderArr : List Json → String
  | [] => ""
  | [x] => Json.render x
  | x :: y :: xs => Json.render x ++ "," ++ Json.renderArr (y :: xs)

/-- Render the comma-separated key/value pairs of a JSON object. -/
def Json.renderObj : List (String × Json) → String
  | [] => ""
  | [(k, v)] => "\"" ++ escapeJsonString k ++ "\":" ++ Json.render v
  | (k, v) :: f :: fs =>
      "\"" ++ escapeJsonString k ++ "\":" ++ Json.render v ++ "," ++
        Json.renderObj (f :: fs)

end

/-- The elements of a JSON array (empty for non-arrays). -/
def jarrElems : Json → List Json
  | .jarr xs => xs
  | _ => []

/-- Field lookup in a JSON object (serde objects here have distinct keys). -/
def Json.objGet : Json → String → Option Json
  | .jobj fs, k => (fs.find? (fun p => p.1 == k)).map Prod.snd
  | _, _ => none

/-- `true` when the JSON object has field `k` holding JSON `null`. -/
def Json.isNullAt (j : Json) (k : String) : Bool :=
  match j.objGet k with
  | some .jnull => true
  | _ => false

/-- A value held by one column of a tiberius result row: an i32, an
NVARCHAR string, SQL NULL, or a value of some other SQL type. -/
inductive CellValue where
  | int : Int → CellValue
  | str : String → CellValue
  | null : CellValue
  | other : CellValue
deriving DecidableEq, Repr

/-- A tiberius result `Row`: column names with their values. -/
structure Row where
  cells : List (String × CellValue)
deriving DecidableEq, Repr

/-- The cell stored under column `col`, if the column exists. -/
def Row.lookup (r : Row) (col : String) : Option CellValue :=
  (r.cells.find? (fun p => p.1 == col)).map Prod.snd

/-- `row.get::<i32, _>(col)`: the i32 in column `col`, or `none` when the
column is absent, NULL, or holds a value of another type. -/
def Row.getI32 (r : Row) (col : String) : Option Int :=
  match r.lookup col with
  | some (.int n) => some n
  | _ => none

/-- `row.get::<&str, _>(col)`: the string in column `col`, or `none` when
the column is absent, NULL, or holds a value of another type. -/
def Row.getStr (r : Row) (col : String) : Option String :=
  match r.lookup col with
  | some (.str s) => some s
  | _ => none

/-- `true` exactly when the optional cell holds an i32. -/
def isIntCell : Option CellValue → Bool
  | some (.int _) => true
  | _ => false

/-- `true` exactly when the optional cell holds a string. -/
def isStrCell : Option CellValue → Bool
  | some (.str _) => true
  | _ => false

/-- The `User` struct of src/models.rs. -/
structure User where
  id : Int
  username : String
  email : String
  full_name : String
  created_at : Option String
  updated_at : Option String
deriving DecidableEq, Repr

/-- serde serialization of `Option<String>`: `null` or the string. -/
def optStrJson : Option String → Json
  | none => .jnull
  | some s => .jstr s

/-- serde serialization of `User` (`#[derive(Serialize)]`): an object with
the six fields in declaration order. -/
def User.toJson (u : User) : Json :=
  .jobj [("id", .jint u.id),
         ("username", .jstr u.username),
         ("email", .jstr u.email),
         ("full_name", .jstr u.full_name),
         ("created_at", optStrJson u.created_at),
         ("updated_at", optStrJson u.updated_at)]

/-- An actix `HttpResponse` whose body was produced by `.json(...)`:
a status code and the JSON body. -/
structure HttpResponse where
  status : Nat
  body : Json

/-- The database interaction of one GET /users request, as observed by the
handler: `query.query(..)` fails, or it succeeds and
`stream.into_results()` fails, or materialization succeeds with the
result sets (each a list of rows). Error payloads carry the raw
database error text. -/
inductive QueryOutcome where
  | execError : String → QueryOutcome
  | materializeError : String → QueryOutcome
  | success : List (List Row) → QueryOutcome

/-- The row-to-User mapping inside `get_users` (the closure passed to
`rows.iter().map(...)` in src/handlers.rs): column values are extracted
with `unwrap_or` fallbacks, and the datetime fields are set to `None`. -/
def rowToUser (row : Row) : User :=
  { id := (row.getI32 "id").getD 0
    username := (row.getStr "username").getD ""
    email := (row.getStr "email").getD ""
    full_name := (row.getStr "full_name").getD ""
    created_at := none
    updated_at := none }

/-- The locked scope of `get_users`: under the connection lock, execute the
query — an execution error early-returns a 500 response (`Except.error`)
— then call `stream.into_results()`, whose `Result` is handed out of the
scope (`Except.ok`). -/
def lockedQueryPhase (outcome : QueryOutcome) :
    Except HttpResponse (Except String (List (List Row))) :=
  match outcome with
  | .execError _ =>
      .error (HttpResponse.mk 500 (.jstr "Database query failed"))
  | .materializeError e => .ok (.error e)
  | .success result_sets => .ok (.ok result_sets)

/-- The GET /users handler `get_users` of src/handlers.rs, as a function of
the database interaction's outcome: run the locked scope, then process
`results` — on `Ok`, flatten the result sets into rows, map each row to a
`User`, and respond 200 with the JSON array; on `Err`, respond 500. -/
def get_users (outcome : QueryOutcome) : HttpResponse :=
  match lockedQueryPhase outcome with
  | .error response => response
  | .ok results =>
    match results with
    | .ok result_sets =>
        let rows := result_sets.flatten
        let users := rows.map rowToUser
        HttpResponse.mk 200 (.jarr (users.map User.toJson))
    | .error _ =>
        HttpResponse.mk 500 (.jstr "Failed to process query results")

/-- The GET /health handler `health_check` of src/handlers.rs: it takes no
input and unconditionally returns 200 with the fixed JSON string. -/
def health_check : HttpResponse :=
  HttpResponse.mk 200 (.jstr "Server is running!")

/-- Observable events of one `get_users` execution, in program order:
acquiring the connection lock, executing the query, obtaining the raw
result stream, materializing it via `into_results`, dropping the lock
guard (end of the scoped block, or function return), mapping rows to
`User`s, and returning the response. -/
inductive Event where
  | lockAcquire : Event
  | queryExec : Event
  | streamObtained : Event
  | materialize : Event
  | lockRelease : Event
  | mapRows : Event
  | respond : Event
deriving DecidableEq, Repr, BEq

/-- The event trace of `get_users` in src/handlers.rs. The scoped block
holds `client_guard`; `query.query` runs inside it; on query error the
handler returns early (dropping the guard); otherwise
`stream.into_results().await` also runs inside the block, and the guard
is dropped at the closing brace, before the `match results` processing
and the row-to-User mapping. -/
def get_users_trace (outcome : QueryOutcome) : List Event :=
  match outcome with
  | .execError _ =>
      [.lockAcquire, .queryExec, .lockRelease, .respond]
  | .materializeError _ =>
      [.lockAcquire, .queryExec, .streamObtained, .materialize,
       .lockRelease, .respond]
  | .success _ =>
      [.lockAcquire, .queryExec, .streamObtained, .materialize,
       .lockRelease, .mapRows, .respond]

/-- The database configuration assembled by `init_db` in src/db.rs. -/
structure DbConfig where
  host : String
  port : Nat
  database : String
  user : String
  password : String
deriving DecidableEq, Repr

/-- Rust's `str::parse::<u16>()`: an optional leading `+`, then at least
one ASCII digit and nothing else, with the value at most 65535;
anything else (including overflow) is a parse error, `none`. -/
def parseU16 (s : String) : Option Nat :=
  let t := match s.data with
    | '+' :: rest => rest
    | cs => cs
  if t.length = 0 then none
  else if t.all Char.isDigit then
    let n := t.foldl (fun acc c => acc * 10 + (c.toNat - 48)) 0
    if n < 65536 then some n else none
  else none

/-- The environment-reading prefix of `init_db` in src/db.rs: each of the
five `std::env::var` reads is propagated with `?`, in source order
(DB_HOST, DB_PORT, DB_NAME, DB_USER, DB_PASSWORD), and the port string
is parsed as `u16`, each failure mapped to its fixed error message. The
environment is a partial map from variable name to value. -/
def init_db_config (env : String → Option String) : Except String DbConfig :=
  match env "DB_HOST" with
  | none => .error "DB_HOST environment variable not set"
  | some db_host =>
  match env "DB_PORT" with
  | none => .error "DB_PORT environment variable not set"
  | some port_str =>
  match parseU16 port_str with
  | none => .error "DB_PORT must be a valid port number"
  | some db_port =>
  match env "DB_NAME" with
  | none => .error "DB_NAME environment variable not set"
  | some db_name =>
  match env "DB_USER" with
  | none => .error "DB_USER environment variable not set"
  | some db_user =>
  match env "DB_PASSWORD" with
  | none => .error "DB_PASSWORD environment variable not set"
  | some db_password =>
      .ok { host := db_host, port := db_port, database := db_name,
            user := db_user, password := db_password }

/-- Startup result of `main` in src/main.rs: either the process aborts
before serving (the `.expect` panics when `init_db` errors), or it
serves with the configuration. -/
inductive ProcessStart where
  | aborted : ProcessStart
  | serving : DbConfig → ProcessStart
deriving Repr

/-- `main` of src/main.rs up to serving: `db::init_db().await.expect(..)`
panics — aborting before the HTTP server binds — whenever `init_db`
errors; the later network phase of `init_db` is abstracted by
`connectOk`, and a connection failure likewise aborts startup. -/
def main_start (env : String → Option String)
    (connectOk : DbConfig → Bool) : ProcessStart :=
  match init_db_config env with
  | .error _ => .aborted
  | .ok cfg => if connectOk cfg then .serving cfg else .aborted

/-- A malformed row used to exercise the silent-defaulting behaviour: the
id column holds a string, username holds an integer, email is NULL, and
full_name is absent altogether. -/
def rowBad : Row :=
  Row.mk [("id", CellValue.str "x"), ("username", CellValue.int 7),
          ("email", CellValue.null)]

/-- An environment where all five variables are set but DB_PORT does not
parse as a u16. -/
def envPortMalformed : String → Option String := fun k =>
  if k = "DB_HOST" then some "localhost"
  else if k = "DB_PORT" then some "notaport"
  else if k = "DB_NAME" then some "mydb"
  else if k = "DB_USER" then some "sa"
  else if k = "DB_PASSWORD" then some "secret"
  else none

/-- Successful `init_db_config` runs pin down the environment: every one of
the five variables was present and the port string parsed as a u16. -/
theorem init_db_config_ok_spec (env : String → Option String) (cfg : DbConfig)
    (h : init_db_config env = .ok cfg) :
    env "DB_HOST" = some cfg.host ∧
    (∃ s, env "DB_PORT" = some s ∧ parseU16 s = some cfg.port) ∧
    env "DB_NAME" = some cfg.database ∧
    env "DB_USER" = some cfg.user ∧
    env "DB_PASSWORD" = some cfg.password := by
  unfold init_db_config at h
  split at h
  · exact Except.noConfusion h
  rename_i db_host hhost
  split at h
  · exact Except.noConfusion h
  rename_i port_str hport
  split at h
  · exact Except.noConfusion h
  rename_i db_port hparse
  split at h
  · exact Except.noConfusion h
  rename_i db_name hname
  split at h
  · exact Except.noConfusion h
  rename_i db_user huser
  split at h
  · exact Except.noConfusion h
  rename_i db_password hpass
  cases h
  exact ⟨hhost, ⟨port_str, hport, hparse⟩, hname, huser, hpass⟩

/-- C1: for every successful execution of the listing handler, the response
is 200 and its body is a JSON array whose length equals the number of
rows returned by the query, with the i-th element being the serialized
mapping of the i-th returned row. -/
theorem get_users_success_shape (rss : List (List Row)) :
    (get_users (.success rss)).status = 200 ∧
    (get_users (.success rss)).body =
      .jarr (List.map (fun r => User.toJson (rowToUser r)) rss.flatten) ∧
    (jarrElems (get_users (.success rss)).body).length = rss.flatten.length ∧
    ∀ i : Nat, (jarrElems (get_users (.success rss)).body)[i]? =
      (rss.flatten[i]?).map (fun r => User.toJson (rowToUser r)) := by
  have hbody : jarrElems (get_users (.success rss)).body =
      List.map (fun r => User.toJson (rowToUser r)) rss.flatten := by
    simp [get_users, lockedQueryPhase, jarrElems, Function.comp_def]
  refine ⟨rfl, ?_, ?_, ?_⟩
  · simp [get_users, lockedQueryPhase, Function.comp_def]
  · rw [hbody, List.length_map]
  · intro i
    rw [hbody, List.getElem?_map]

/-- C2: every request to the liveness handler yields 200 with the literal
JSON string body "Server is running!", with no failure mode and no
dependency on any other state. -/
theorem health_check_contract :
    health_check.status = 200 ∧
    health_check.body = .jstr "Server is running!" ∧
    Json.render health_check.body = "\"Server is running!\"" :=
  ⟨rfl, rfl, by decide⟩

/-- C3: every failing execution of the listing handler — query execution or
result materialization — yields 500 with a JSON string body, and that
body is a fixed generic message, independent of the raw database error
text, so the raw error never reaches the client. -/
theorem get_users_error_opaque (e e' : String) :
    (get_users (.execError e)).status = 500 ∧
    (∃ s, (get_users (.execError e)).body = .jstr s) ∧
    (get_users (.materializeError e)).status = 500 ∧
    (∃ s, (get_users (.materializeError e)).body = .jstr s) ∧
    get_users (.execError e) = get_users (.execError e') ∧
    get_users (.materializeError e) = get_users (.materializeError e') :=
  ⟨rfl, ⟨_, rfl⟩, rfl, ⟨_, rfl⟩, rfl, rfl⟩

/-- C4: the created_at and updated_at fields are null in every Record
returned by the listing handler, both at the `User` level (the mapping
always sets them to `None`) and in every serialized element of the
response array, regardless of the underlying store rows. -/
theorem get_users_timestamps_null (rss : List (List Row)) :
    (∀ row : Row,
      (rowToUser row).created_at = none ∧ (rowToUser row).updated_at = none) ∧
    (jarrElems (get_users (.success rss)).body).all
      (fun j => j.isNullAt "created_at" && j.isNullAt "updated_at") = true := by
  constructor
  · exact fun row => ⟨rfl, rfl⟩
  · refine List.all_eq_true.mpr ?_
    intro j hj
    simp [get_users, lockedQueryPhase, jarrElems] at hj
    obtain ⟨r, hr, a, ha, rfl⟩ := hj
    rfl

/-- C5: the row-to-Record mapping never fails — when a column is missing,
NULL, or of unexpected type, the id field silently defaults to 0 and
each string field to the empty string, each field independently, and
every row still contributes exactly one Record to the response. -/
theorem get_users_row_defaults (row : Row) :
    (isIntCell (row.lookup "id") = false → (rowToUser row).id = 0) ∧
    (isStrCell (row.lookup "username") = false →
      (rowToUser row).username = "") ∧
    (isStrCell (row.lookup "email") = false → (rowToUser row).email = "") ∧
    (isStrCell (row.lookup "full_name") = false →
      (rowToUser row).full_name = "") ∧
    ∀ rs : List Row, (get_users (.success [rs])).status = 200 ∧
      (jarrElems (get_users (.success [rs])).body).length = rs.length := by
  refine ⟨?_, ?_, ?_, ?_, ?_⟩
  · intro h
    unfold rowToUser Row.getI32
    cases hc : row.lookup "id" with
    | none => rfl
    | some c => cases c <;> simp_all [isIntCell]
  · intro h
    unfold rowToUser Row.getStr
    cases hc : row.lookup "username" with
    | none => rfl
    | some c => cases c <;> simp_all [isStrCell]
  · intro h
    unfold rowToUser Row.getStr
    cases hc : row.lookup "email" with
    | none => rfl
    | some c => cases c <;> simp_all [isStrCell]
  · intro h
    unfold rowToUser Row.getStr
    cases hc : row.lookup "full_name" with
    | none => rfl
    | some c => cases c <;> simp_all [isStrCell]
  · intro rs
    refine ⟨rfl, ?_⟩
    simp [get_users, lockedQueryPhase, jarrElems, Function.comp_def]

/-- C5 witness: on a concrete malformed row — id of string type, username
of integer type, email NULL, full_name absent — every field is silently
defaulted and the row still yields one element in the 200 response. -/
theorem get_users_row_defaults_witness :
    (rowToUser rowBad).id = 0 ∧
    (rowToUser rowBad).username = "" ∧
    (rowToUser rowBad).email = "" ∧
    (rowToUser rowBad).full_name = "" ∧
    ((get_users (.success [[rowBad]])).status = 200 ∧
      (jarrElems (get_users (.success [[rowBad]])).body).length = 1) :=
  ⟨(get_users_row_defaults rowBad).1 (by decide),
   (get_users_row_defaults rowBad).2.1 (by decide),
   (get_users_row_defaults rowBad).2.2.1 (by decide),
   (get_users_row_defaults rowBad).2.2.2.1 (by decide),
   (get_users_row_defaults rowBad).2.2.2.2 [rowBad]⟩

/-- C6: a successful query returning zero rows yields 200 with body exactly
the empty JSON array, rendered as the two characters `[]`. -/
theorem get_users_empty (rss : List (List Row)) (h : rss.flatten = []) :
    (get_users (.success rss)).status = 200 ∧
    (get_users (.success rss)).body = .jarr [] ∧
    Json.render (get_users (.success rss)).body = "[]" := by
  have hb : (get_users (.success rss)).body = .jarr [] := by
    have hbody : (get_users (.success rss)).body =
        .jarr (List.map (fun r => User.toJson (rowToUser r)) rss.flatten) := by
      simp [get_users, lockedQueryPhase, Function.comp_def]
    rw [hbody, h]
    rfl
  refine ⟨rfl, hb, ?_⟩
  rw [hb]
  decide

/-- C6 witness: a successful outcome with two empty result sets has zero
rows and produces the 200 `[]` response. -/
theorem get_users_empty_witness :
    ([([] : List Row), []].flatten = ([] : List Row)) ∧
    (get_users (.success [[], []])).status = 200 ∧
    (get_users (.success [[], []])).body = .jarr [] ∧
    Json.render (get_users (.success [[], []])).body = "[]" :=
  ⟨rfl, (get_users_empty [[], []] rfl).1, (get_users_empty [[], []] rfl).2.1,
   (get_users_empty [[], []] rfl).2.2⟩

/-- C7 counterexample: in the concrete successful execution with one empty
result set, materialization (`into_results`) occurs strictly before the
lock guard is dropped — inside the locked section — contradicting the
claim that result materialization happens outside the locked section. -/
theorem get_users_trace_release_cex :
    (get_users_trace (.success [[]])).contains Event.materialize = true ∧
    (get_users_trace (.success [[]])).contains Event.lockRelease = true ∧
    (get_users_trace (.success [[]])).indexOf Event.materialize <
      (get_users_trace (.success [[]])).indexOf Event.lockRelease := by
  decide

/-- C7 amended: in every execution of the listing handler, the lock on the
shared connection is released only after result materialization
completes (materialization happens inside the locked section), and only
the row-to-Record mapping happens outside the locked section, after the
release. -/
theorem get_users_trace_lock_extent (rss : List (List Row)) (e : String) :
    (get_users_trace (.success rss)).indexOf Event.materialize <
      (get_users_trace (.success rss)).indexOf Event.lockRelease ∧
    (get_users_trace (.success rss)).indexOf Event.lockRelease <
      (get_users_trace (.success rss)).indexOf Event.mapRows ∧
    (get_users_trace (.materializeError e)).indexOf Event.materialize <
      (get_users_trace (.materializeError e)).indexOf Event.lockRelease := by
  simp only [get_users_trace]
  decide

/-- C8: when any of the five connection parameters is missing from the
environment, or the port value does not parse as a u16, `init_db`
returns an error and `main` aborts before serving any request,
whatever the outcome of the later connection phase would have been. -/
theorem init_db_param_errors (env : String → Option String)
    (h : env "DB_HOST" = none ∨ env "DB_PORT" = none ∨
         (∃ s, env "DB_PORT" = some s ∧ parseU16 s = none) ∨
         env "DB_NAME" = none ∨ env "DB_USER" = none ∨
         env "DB_PASSWORD" = none) :
    (∃ msg, init_db_config env = .error msg) ∧
    ∀ connectOk : DbConfig → Bool, main_start env connectOk = .aborted := by
  have herr : ∃ msg, init_db_config env = .error msg := by
    cases hres : init_db_config env with
    | error msg => exact ⟨msg, rfl⟩
    | ok cfg =>
      exfalso
      obtain ⟨hhost, ⟨s, hps, hparse⟩, hname, huser, hpass⟩ :=
        init_db_config_ok_spec env cfg hres
      rcases h with h | h | ⟨t, ht, hpt⟩ | h | h | h
      · rw [h] at hhost; cases hhost
      · rw [h] at hps; cases hps
      · rw [ht] at hps
        injection hps with hst
        subst hst
        rw [hparse] at hpt
        cases hpt
      · rw [h] at hname; cases hname
      · rw [h] at huser; cases huser
      · rw [h] at hpass; cases hpass
  refine ⟨herr, ?_⟩
  intro connectOk
  obtain ⟨msg, hmsg⟩ := herr
  unfold main_start
  rw [hmsg]

/-- C8 witness: with every variable set but DB_PORT equal to "notaport",
initialization errors and startup aborts. -/
theorem init_db_param_errors_witness :
    (∃ msg, init_db_config envPortMalformed = .error msg) ∧
    main_start envPortMalformed (fun _ => true) = .aborted :=
  ⟨(init_db_param_errors envPortMalformed
      (Or.inr (Or.inr (Or.inl ⟨"notaport", by decide, by decide⟩)))).1,
   (init_db_param_errors envPortMalformed
      (Or.inr (Or.inr (Or.inl ⟨"notaport", by decide, by decide⟩)))).2 _⟩

/-- C9: the two failure stages are distinguishable by their exact bodies —
query-execution failures yield exactly 500 "Database query failed",
materialization failures yield exactly 500 "Failed to process query
results", and every non-200 response of the handler is one of these
two. -/
theorem get_users_error_bodies (outcome : QueryOutcome) :
    ((∃ e, outcome = .execError e) →
      get_users outcome =
        HttpResponse.mk 500 (.jstr "Database query failed")) ∧
    ((∃ e, outcome = .materializeError e) →
      get_users outcome =
        HttpResponse.mk 500 (.jstr "Failed to process query results")) ∧
    ((get_users outcome).status ≠ 200 →
      (get_users outcome).status = 500 ∧
      ((get_users outcome).body = .jstr "Database query failed" ∨
       (get_users outcome).body = .jstr "Failed to process query results")) := by
  refine ⟨?_, ?_, ?_⟩
  · rintro ⟨e, rfl⟩
    rfl
  · rintro ⟨e, rfl⟩
    rfl
  · intro hne
    cases outcome with
    | execError e => exact ⟨rfl, Or.inl rfl⟩
    | materializeError e => exact ⟨rfl, Or.inr rfl⟩
    | success rss => exact absurd rfl hne

/-- C9 witness: concrete executions of both failure stages produce exactly
the two distinct fixed bodies. -/
theorem get_users_error_bodies_witness :
    get_users (.execError "io error") =
      HttpResponse.mk 500 (.jstr "Database query failed") ∧
    get_users (.materializeError "protocol error") =
      HttpResponse.mk 500 (.jstr "Failed to process query results") ∧
    ((get_users (.execError "io error")).status = 500 ∧
      ((get_users (.execError "io error")).body =
          .jstr "Database query failed" ∨
       (get_users (.execError "io error")).body =
          .jstr "Failed to process query results")) :=
  ⟨(get_users_error_bodies (.execError "io error")).1 ⟨_, rfl⟩,
   (get_users_error_bodies (.materializeError "protocol error")).2.1 ⟨_, rfl⟩,
   (get_users_error_bodies (.execError "io error")).2.2 (by decide)⟩

/-- C10: a successful query with several result sets contributes the rows
of every result set to the single returned array, concatenated in
result-set order — the handler is not restricted to the first result
set. -/
theorem get_users_all_result_sets (rss : List (List Row)) :
    jarrElems (get_users (.success rss)).body =
      (rss.map (fun rs => rs.map (fun r => User.toJson (rowToUser r)))).flatten := by
  simp [get_users, lockedQueryPhase, jarrElems, Function.comp_def]
